import Mathlib

/-!
Shallow embedding of the comparative-rendering core of
`pupilanalysis/drosom/plotting/basics.py` (single-map renderer,
difference-map renderer, comparison orchestrator, multi-view
orchestrator), together with theorems about the embedded code.

Modelling conventions:
* Python floats are modelled as rationals (`ℚ`); all arithmetic the
  claims touch is exact.
* Azimuth angles are stored as coefficients of π: the source value
  `math.pi/2` is represented by `(1 : ℚ)/2`, `2*math.pi` by `2`, and
  `np.linspace(math.pi/2, 3*math.pi/2, 50)` by `linspace (1/2) (3/2) 50`
  (`linspace` is affine, so this is an exact change of units).
* The external collaborators `get_3d_vectors` (Geometry Provider) and
  `field_error` (Error Field Calculator) are parameters: each analyser
  carries its own extraction function, and `field_error` is passed in.
  An extraction returning `none` models the call raising
  (`strict=True` finding no data, etc.); Python exception propagation
  is modelled by a `raised` flag that short-circuits the rest of the
  call while keeping all mutations performed so far.
* Pure drawing calls (`vector_plot`, `surface_plot`, `add_rhabdomeres`,
  `add_line`, axis labels, camera `view_init`, text, images) are
  rendering-only and have no effect on the modelled state; the one
  drawing-adjacent effect the claims need — colorbar attachment — is
  modelled by a marker plus an attachment counter on the target axes.
-/

namespace Pupil

/-- A 3D point or vector, `(x, y, z)`. -/
abbrev Vec3 := ℚ × ℚ × ℚ

/-- Mutable geometric configuration of an analyser-like object:
`vector_rotation` plus the three optional tilt attributes
(`pitch_rot`, `yaw_rot`, `roll_rot`), all in degrees. -/
structure TransformState where
  vector_rotation : ℚ
  pitch_rot : Option ℚ
  yaw_rot : Option ℚ
  roll_rot : Option ℚ
deriving DecidableEq

/-- Result type of `manalyser.get_3d_vectors(eye, ...)`: a point list and a
matching vector list; `none` models the call raising. -/
abbrev ExtractFn := String → TransformState → Option (List Vec3 × List Vec3)

/-- An analyser-like entity. `className` is `manalyser.__class__.__name__`;
`subClassNames` lists `__class__.__name__` of `manalyser.manalysers`
(used by the `MAverager` / optic-flow checks); `eyes` is the eye-identifier
list; `ts` is the mutable transform state; `extract` is the external
`get_3d_vectors` collaborator (the `correct_level` / `repeats_separately` /
`strict` / `vertical_hardborder` arguments are absorbed into it, since the
embedded callers pass constants and the claims never inspect them). -/
structure Analyser where
  className : String
  subClassNames : List String
  eyes : List String
  ts : TransformState
  extract : ExtractFn

/-- External `field_error(points_A, vectors_A, points_B, vectors_B, colinear)`
collaborator: returns one scalar error per reference point. -/
abbrev FieldErrorFn := List Vec3 → List Vec3 → List Vec3 → List Vec3 → Bool → List ℚ

/-- One recorded `get_3d_vectors` call: the eye it was made for and the
analyser's transform state at the moment of the call. -/
structure ExtractCall where
  eye : String
  ts : TransformState
deriving DecidableEq

/-- The `np.linspace(start, stop, num)` sampling grid (endpoint included):
`start + (stop - start) * i / (num - 1)` for `i = 0, …, num-1`. -/
def linspace (start stop : ℚ) (num : ℕ) : List ℚ :=
  (List.range num).map (fun i => start + (stop - start) * i / ((num : ℚ) - 1))

/-- The `errors = 1 - errors` post-processing of an error field
(numpy broadcast of `1 - e` over every entry). -/
def reverseField (es : List ℚ) : List ℚ :=
  es.map (fun e => 1 - e)

/-- The `np.mean` of a list of scalars. -/
def npMean (es : List ℚ) : ℚ :=
  es.sum / es.length

/-- Embedding of `_set_analyser_attributes(analyser, skip_none=True,
raise_errors=False, **kwargs)` (basics.py lines 176-188).  The object is
modelled as an association list of attributes.  The body iterates
`for key, value in kwargs:` — but iterating a Python dict yields its
keys, so with any keyword argument present the tuple unpacking
`key, value` of a multi-character key string raises `ValueError`; with no
keyword arguments the loop body never runs and the object is returned
untouched.  At the file's only call site (line 231 in
`plot_3d_vectormap`) the attribute dict is passed as the positional
`analyser` argument and no keyword arguments are passed at all, so the
call is a no-op on the manalyser. -/
def _set_analyser_attributes (analyser : List (String × Option ℚ))
    (kwargs : List (String × Option ℚ)) : Except String (List (String × Option ℚ)) :=
  match kwargs with
  | [] => Except.ok analyser
  | (key, _) :: _ => Except.error ("ValueError: too many values to unpack iterating dict key " ++ key)

/-- The `manalyser_type` classification at the top of `plot_3d_vectormap`
(basics.py lines 219-229).  `arrow_rotations = [0]` is the conjunction
`len(arrow_rotations) == 1 and arrow_rotations[0] == 0` from the source;
the `FAnalyser` branch only changes colors and `i_frame` (rendering-only),
leaving the type at its `'MAnalyser'` initialisation. -/
def manalyser_type (m : Analyser) (arrow_rotations : List ℚ) : String :=
  if m.className = "OAnalyser" ∧ arrow_rotations = [0] then "OAnalyser"
  else if m.className = "MAverager" ∧ m.subClassNames.all (fun s => s = "OAnalyser") then "OAnalyser"
  else "MAnalyser"

/-- Loop state while `plot_3d_vectormap` iterates its extraction calls:
the analyser's transform state (the only analyser field the function
writes), the trace of `get_3d_vectors` calls made, and whether an
exception has escaped. -/
structure VmState where
  ts : TransformState
  trace : List ExtractCall
  raised : Bool
deriving DecidableEq

/-- One `get_3d_vectors` call inside `plot_3d_vectormap`: records the call
and, when the extraction fails, marks the exception (everything after the
raise is skipped). -/
def vmExtract (ex : ExtractFn) (st : VmState) (eye : String) : VmState :=
  if st.raised then st
  else
    let call : ExtractCall := ⟨eye, st.ts⟩
    match ex eye st.ts with
    | some _ => ⟨st.ts, st.trace ++ [call], false⟩
    | none => ⟨st.ts, st.trace ++ [call], true⟩

/-- One iteration of the main double loop of `plot_3d_vectormap`
(basics.py lines 283-312): `manalyser.vector_rotation = rotation` — the
guard `rotation is not None or rotation != 0` is always true for a
numeric rotation — followed by the extraction call.  `vector_plot` /
`add_line` are rendering-only. -/
def vmStep (ex : ExtractFn) (rotation : ℚ) (st : VmState) (eye : String) : VmState :=
  if st.raised then st
  else vmExtract ex { st with ts := { st.ts with vector_rotation := rotation } } eye

/-- Result of `plot_3d_vectormap`: the analyser after the call (with all
mutations that stuck), the `arrow_rotations` list object as the caller
sees it after the call (Python's `list.append` mutates the caller's
object in place), the extraction-call trace, and whether the call raised. -/
structure VectormapOutcome where
  manalyser : Analyser
  arrow_rotations : List ℚ
  trace : List ExtractCall
  raised : Bool

/-- Embedding of `plot_3d_vectormap` (basics.py lines 191-331) restricted
to the state and extraction behaviour the claims are about.  Notes kept
faithful to the source:
* line 231 calls `_set_analyser_attributes({'pitch_rot': pitch_rot,
  'roll_rot': roll_rot, 'yaw_rot': yaw_rot})` — the dict is the
  positional `analyser` argument and no keyword arguments are passed, so
  nothing is ever set on the manalyser (the tilt parameters are dropped);
* lines 241-242 append `29` to the caller's `arrow_rotations` list in
  place when the entity is OAnalyser-typed and the list is `[0]` (in
  Python the default `[0]` is one shared object, so this also mutates the
  default seen by later calls; the embedding takes the list explicitly);
* lines 262-279 (OAnalyser rhabdomere pass) set `vector_rotation = 0`
  and extract once per eye before the main loop;
* line 314 restores `vector_rotation` — plain straight-line code, only
  reached when no exception escaped;
* `elev` / `azim` / `camerapos` / `i_frame` / colors and the
  `animation_type == 'rotate_plot'` camera unpacking are rendering-only
  and carry no modelled state. -/
def plot_3d_vectormap (m : Analyser) (arrow_rotations : List ℚ) (rhabdomeres : Bool)
    (pitch_rot roll_rot yaw_rot : Option ℚ) (_animation_type : Option String) :
    VectormapOutcome :=
  let mtype := manalyser_type m arrow_rotations
  let _noop := _set_analyser_attributes
    [("pitch_rot", pitch_rot), ("roll_rot", roll_rot), ("yaw_rot", yaw_rot)] []
  let arrow_rotations := if mtype = "OAnalyser" ∧ arrow_rotations = [0]
    then arrow_rotations ++ [29] else arrow_rotations
  let original_rotation := m.ts.vector_rotation
  let st1 : VmState := if mtype = "OAnalyser" ∧ rhabdomeres then
      m.eyes.foldl (vmExtract m.extract) ⟨{ m.ts with vector_rotation := 0 }, [], false⟩
    else ⟨m.ts, [], false⟩
  let st2 := arrow_rotations.foldl (fun st rot => m.eyes.foldl (vmStep m.extract rot) st) st1
  { manalyser := if st2.raised then { m with ts := st2.ts }
      else { m with ts := { st2.ts with vector_rotation := original_rotation } },
    arrow_rotations := arrow_rotations,
    trace := st2.trace,
    raised := st2.raised }

/-- State stashed as ad-hoc attributes on a difference-map target axes:
the `differencemap_colorbar` marker (the source stores `[cax, colorbar]`;
only its presence matters) plus an instrumentation counter of how many
`plt.colorbar(...)` attachments have been performed on this target. -/
structure AxState where
  differencemap_colorbar : Option Unit
  colorbar_count : ℕ
deriving DecidableEq

/-- Accumulators of the per-eye loop of `plot_3d_differencemap`:
the list of per-eye error fields (`all_errors`), the azimuth sampling
ranges handed to `surface_plot` per eye (in units of π), and the
exception flag. -/
structure DiffLoopState where
  all_errors : List (List ℚ)
  partitions : List (String × List (List ℚ))
  raised : Bool
deriving DecidableEq

/-- One eye of the `plot_3d_differencemap` loop (basics.py lines 384-411):
extract from both analysers (either extraction may raise), compute
`field_error` at the first analyser's points, optionally reverse it, and
record the fixed azimuth partition used for the surface rendering
(`[π/2, 3π/2]` with 50 samples for the left eye, `[0, π/2]` and
`[3π/2, 2π]` with 25 samples each otherwise; stored as coefficients
of π). -/
def diffEyeStep (fE : FieldErrorFn) (e1 e2 : ExtractFn) (ts1 ts2 : TransformState)
    (colinear rev : Bool) (st : DiffLoopState) (eye : String) : DiffLoopState :=
  if st.raised then st
  else
    match e1 eye ts1, e2 eye ts2 with
    | some pv1, some pv2 =>
      let errs := fE pv1.1 pv1.2 pv2.1 pv2.2 colinear
      let errs := if rev then reverseField errs else errs
      let phis := if eye = "left" then [linspace (1/2) (3/2) 50]
        else [linspace 0 (1/2) 25, linspace (3/2) 2 25]
      { all_errors := st.all_errors ++ [errs],
        partitions := st.partitions ++ [(eye, phis)],
        raised := false }
    | _, _ => { st with raised := true }

/-- The transform state of the second analyser after the override prologue
of `plot_3d_differencemap` (basics.py lines 371-380): `vector_rotation`
is overwritten with `arrow_rotations[0]` when the list is non-empty, and
each supplied tilt is written onto the analyser. -/
def diffTs2 (ts : TransformState) (arrow_rotations : List ℚ)
    (pitch_rot yaw_rot roll_rot : Option ℚ) : TransformState :=
  let ts := if arrow_rotations ≠ [] then
      { ts with vector_rotation := arrow_rotations.headD 0 } else ts
  let ts := if pitch_rot.isSome then { ts with pitch_rot := pitch_rot } else ts
  let ts := if yaw_rot.isSome then { ts with yaw_rot := yaw_rot } else ts
  if roll_rot.isSome then { ts with roll_rot := roll_rot } else ts

/-- Result of `plot_3d_differencemap`: the second analyser after the call
(the first is never written), the target-axes state, the combined error
field, the per-eye error fields it concatenates, the recorded azimuth
partitions, and the exception flag. -/
structure DiffOutcome where
  m2 : Analyser
  ax : AxState
  errors : List ℚ
  per_eye_errors : List (List ℚ)
  partitions : List (String × List (List ℚ))
  raised : Bool

/-- Embedding of `plot_3d_differencemap` (basics.py lines 334-469).
Faithful points:
* lines 371-373: when `arrow_rotations` is non-empty the second
  analyser's `vector_rotation` is saved and overwritten with
  `arrow_rotations[0]`;
* lines 375-380: a supplied `pitch_rot` / `yaw_rot` / `roll_rot` is
  written onto the second analyser — and never restored anywhere in the
  function;
* lines 384-411: the per-eye loop over `manalyser1.eyes` (both analysers'
  transform states are fixed during the loop);
* line 413: `np.concatenate(all_errors)` raises `ValueError` when the
  eye list was empty (no arrays to concatenate);
* lines 418-429: a colorbar is attached only when `colorbar` is true and
  the `differencemap_colorbar` marker on the target is still unset; the
  colorbar info text is rendering-only;
* lines 461-462: `vector_rotation` is restored (again only when
  `arrow_rotations` is non-empty) — straight-line code, skipped when an
  exception escaped earlier. -/
def plot_3d_differencemap (fE : FieldErrorFn) (m1 m2 : Analyser) (ax : AxState)
    (colinear colorbar : Bool) (_colorbar_ax : Option Unit) (reverse_errors : Bool)
    (arrow_rotations : List ℚ) (pitch_rot yaw_rot roll_rot : Option ℚ) : DiffOutcome :=
  let original_rotation := m2.ts.vector_rotation
  let ts2 := diffTs2 m2.ts arrow_rotations pitch_rot yaw_rot roll_rot
  let loop := m1.eyes.foldl
    (diffEyeStep fE m1.extract m2.extract m1.ts ts2 colinear reverse_errors)
    ⟨[], [], false⟩
  let raised := loop.raised || loop.all_errors.isEmpty
  let errors := loop.all_errors.flatten
  let ax := if raised = false ∧ colorbar = true ∧ ax.differencemap_colorbar = none then
      ⟨some (), ax.colorbar_count + 1⟩ else ax
  let ts2 := if raised = false ∧ arrow_rotations ≠ [] then
      { ts2 with vector_rotation := original_rotation } else ts2
  { m2 := { m2 with ts := ts2 }, ax := ax, errors := errors,
    per_eye_errors := loop.all_errors, partitions := loop.partitions, raised := raised }

/-- The keyword arguments of `plot_3d_vectormap` that
`compare_3d_vectormaps` routes through its `kwargs1` / `kwargs2` / catch-all
`**kwargs` dicts and that carry modelled state (`none` means the key is
absent, so the callee's default applies; `elev` / `azim` are camera-only
but are kept because the orchestrators set them). -/
structure VKwargs where
  arrow_rotations : Option (List ℚ)
  pitch_rot : Option ℚ
  roll_rot : Option ℚ
  yaw_rot : Option ℚ
  elev : Option ℚ
  azim : Option ℚ
deriving DecidableEq

/-- The empty keyword-argument dict `{}`. -/
def noVKwargs : VKwargs := ⟨none, none, none, none, none, none⟩

/-- The keyword arguments of `plot_3d_differencemap` routed through
`kwargsD` (`colorbar_text_positions` is rendering-only and omitted). -/
structure DKwargs where
  colinear : Option Bool
  colorbar : Option Bool
  colorbar_ax : Option Unit
deriving DecidableEq

/-- The empty `kwargsD` dict `{}`. -/
def noDKwargs : DKwargs := ⟨none, none, none⟩

/-- State stashed as ad-hoc attributes on the total-error target axes:
the RunningErrorSeries (`pupil_compare_errors` paired with
`pupil_compare_rotations`, plus the biphasic `pupil_compare_reverse_errors`);
`none` models the attribute not existing yet on the axes object. -/
structure ErrorAxState where
  pupil_compare_errors : Option (List ℚ)
  pupil_compare_rotations : Option (List ℚ)
  pupil_compare_reverse_errors : Option (List ℚ)
deriving DecidableEq

/-- A fresh total-error target (no RunningErrorSeries attributes yet). -/
def freshErrorAx : ErrorAxState := ⟨none, none, none⟩

/-- A fresh difference-map target (no colorbar yet). -/
def freshAx : AxState := ⟨none, 0⟩

/-- The analysers and effective keyword dicts after the argument-fixup
prologue of `compare_3d_vectormaps` (basics.py lines 508-563). -/
structure CompareSetup where
  m1 : Analyser
  m2 : Analyser
  kwargs1 : VKwargs
  kwargs2 : VKwargs
  kwargsD : DKwargs

/-- Embedding of the prologue of `compare_3d_vectormaps` (basics.py lines
531-563):
* lines 531-532 rebuild `kwargs1` and `kwargs2` as copies of the
  catch-all `**kwargs` (the caller-supplied `kwargs1` / `kwargs2`
  arguments are discarded before any use — they are therefore not inputs
  of this prologue);
* lines 534-545: `'rotate_arrows'` installs `[animation_variable]` as
  the second map's rotation list (`colorbar_text_positions` is
  rendering-only; the `FAnalyser` `constant_points` flag only tunes the
  external extractor); a tilt type writes the animation variable under
  its own key into `kwargs2` and forces `kwargsD['colinear'] = False`;
* the `'rotate_plot'` branch (lines 546-550) only sets camera
  `elev`/`azim` from a pair-valued animation variable and is outside the
  embedded (scalar-swept) fragment;
* lines 553-560: an optic-flow side (`manalysers[0]` an `FAnalyser`)
  gets a 10° pitch, both as a kwarg and directly on the analyser, unless
  the sweep is a pitch sweep;
* line 562 (`kwargs2['arrows'] = False`) is rendering-only. -/
def compareSetup (m1 m2 : Analyser) (animation_type : Option String)
    (animation_variable : ℚ) (kwargsD : DKwargs) (kwargs : VKwargs) : CompareSetup :=
  let kwargs1 := kwargs
  let kwargs2 := kwargs
  let s : VKwargs × DKwargs :=
    if animation_type = some "rotate_arrows" then
      ({ kwargs2 with arrow_rotations := some [animation_variable] }, kwargsD)
    else if animation_type = some "pitch_rot" then
      ({ kwargs2 with pitch_rot := some animation_variable }, { kwargsD with colinear := some false })
    else if animation_type = some "roll_rot" then
      ({ kwargs2 with roll_rot := some animation_variable }, { kwargsD with colinear := some false })
    else if animation_type = some "yaw_rot" then
      ({ kwargs2 with yaw_rot := some animation_variable }, { kwargsD with colinear := some false })
    else (kwargs2, kwargsD)
  let kwargs2 := s.1
  let kwargsD := s.2
  let t1 : VKwargs × Analyser :=
    if m1.subClassNames.head? = some "FAnalyser" ∧ animation_type ≠ some "pitch_rot" then
      ({ kwargs1 with pitch_rot := some 10 }, { m1 with ts := { m1.ts with pitch_rot := some 10 } })
    else (kwargs1, m1)
  let t2 : VKwargs × Analyser :=
    if m2.subClassNames.head? = some "FAnalyser" ∧ animation_type ≠ some "pitch_rot" then
      ({ kwargs2 with pitch_rot := some 10 }, { m2 with ts := { m2.ts with pitch_rot := some 10 } })
    else (kwargs2, m2)
  ⟨t1.2, t2.2, t1.1, t2.1, kwargsD⟩

/-- Result of one `compare_3d_vectormaps` call: both analysers after the
call, the total-error axes state, the main and biphasic difference-map
axes states, the trace of Panel 2's extraction calls, the `colinear` and
`colorbar` values actually passed to the main difference-map call
(`none` when the call was never reached), the combined error field and
its reverse-phase counterpart, and the exception flag. -/
structure CompareOutcome where
  m1 : Analyser
  m2 : Analyser
  errorAx : ErrorAxState
  diffAx : AxState
  biphAx : AxState
  panel2_trace : List ExtractCall
  diff_colinear : Option Bool
  diff_colorbar : Option Bool
  errors : List ℚ
  reverse_errs : List ℚ
  raised : Bool

/-- Embedding of the panel calls of `compare_3d_vectormaps` (basics.py
lines 565-584): Panel 1 and Panel 2 single-map renders, the optional
biphasic (reverse-errors, colorbar-less) difference map, and the main
difference map.  `kwargs1` and `kwargs2` are shallow copies of the same
dict, so a caller-supplied `arrow_rotations` list is one shared object:
an in-place append performed by Panel 1 is visible to Panel 2 and to the
difference-map calls (unless `'rotate_arrows'` installed a fresh list in
`kwargs2`).  An exception from any step skips everything after it while
keeping the mutations already performed.  The illustration panel (lines
586-710) is image drawing only and owns no modelled state. -/
def comparePanels (fE : FieldErrorFn) (s : CompareSetup) (errorAx : ErrorAxState)
    (diffAx biphAx : AxState) (animation_type : Option String) (biphasic : Bool) :
    CompareOutcome :=
  let r1 := plot_3d_vectormap s.m1 (s.kwargs1.arrow_rotations.getD [0]) true
    s.kwargs1.pitch_rot s.kwargs1.roll_rot s.kwargs1.yaw_rot animation_type
  let m1 := r1.manalyser
  let kwargs2 := if animation_type ≠ some "rotate_arrows" ∧ s.kwargs2.arrow_rotations.isSome
    then { s.kwargs2 with arrow_rotations := some r1.arrow_rotations } else s.kwargs2
  if r1.raised then
    { m1 := m1, m2 := s.m2, errorAx := errorAx, diffAx := diffAx, biphAx := biphAx,
      panel2_trace := [], diff_colinear := none, diff_colorbar := none,
      errors := [], reverse_errs := [], raised := true }
  else
    let r2 := plot_3d_vectormap s.m2 (kwargs2.arrow_rotations.getD [0]) true
      kwargs2.pitch_rot kwargs2.roll_rot kwargs2.yaw_rot animation_type
    let m2 := r2.manalyser
    let kwargs2 := if kwargs2.arrow_rotations.isSome
      then { kwargs2 with arrow_rotations := some r2.arrow_rotations } else kwargs2
    if r2.raised then
      { m1 := m1, m2 := m2, errorAx := errorAx, diffAx := diffAx, biphAx := biphAx,
        panel2_trace := r2.trace, diff_colinear := none, diff_colorbar := none,
        errors := [], reverse_errs := [], raised := true }
    else
      let colinearD := s.kwargsD.colinear.getD true
      let colorbarD := s.kwargsD.colorbar.getD true
      let arrD := kwargs2.arrow_rotations.getD [0]
      if biphasic then
        let rBr := plot_3d_differencemap fE m1 m2 biphAx colinearD false
          s.kwargsD.colorbar_ax true arrD kwargs2.pitch_rot kwargs2.yaw_rot kwargs2.roll_rot
        if rBr.raised then
          { m1 := m1, m2 := rBr.m2, errorAx := errorAx, diffAx := diffAx, biphAx := rBr.ax,
            panel2_trace := r2.trace, diff_colinear := none, diff_colorbar := none,
            errors := [], reverse_errs := [], raised := true }
        else
          let rD := plot_3d_differencemap fE m1 rBr.m2 diffAx colinearD colorbarD
            s.kwargsD.colorbar_ax false arrD kwargs2.pitch_rot kwargs2.yaw_rot kwargs2.roll_rot
          { m1 := m1, m2 := rD.m2, errorAx := errorAx, diffAx := rD.ax, biphAx := rBr.ax,
            panel2_trace := r2.trace, diff_colinear := some colinearD,
            diff_colorbar := some colorbarD,
            errors := rD.errors, reverse_errs := rBr.errors, raised := rD.raised }
      else
        let rD := plot_3d_differencemap fE m1 m2 diffAx colinearD colorbarD
          s.kwargsD.colorbar_ax false arrD kwargs2.pitch_rot kwargs2.yaw_rot kwargs2.roll_rot
        { m1 := m1, m2 := rD.m2, errorAx := errorAx, diffAx := rD.ax, biphAx := biphAx,
          panel2_trace := r2.trace, diff_colinear := some colinearD,
          diff_colorbar := some colorbarD,
          errors := rD.errors, reverse_errs := [], raised := rD.raised }

/-- Embedding of the total-error panel of `compare_3d_vectormaps`
(basics.py lines 713-779), applied to the outcome of the panel calls:
* lines 719-721: the RunningErrorSeries attributes are created (as empty
  lists) on first use of a target, keyed on `pupil_compare_errors` alone;
* lines 723-724: `(mean(errors), animation_variable)` is appended;
* line 762 evaluates `np.min(animation)` outside any `is not None` guard,
  so a missing or empty `animation` raises there — after the appends;
* lines 769-777: a biphasic sweep also appends `mean(reverse_errors)` to
  `pupil_compare_reverse_errors`, creating it on first use;
* plot/scatter/label/tick calls are rendering-only. -/
def compareTotalError (total_error biphasic : Bool) (animation : Option (List ℚ))
    (animation_variable : ℚ) (o : CompareOutcome) : CompareOutcome :=
  if o.raised then o
  else if total_error then
    let eA := o.errorAx
    let eA := if eA.pupil_compare_errors = none then
        { eA with pupil_compare_errors := some [], pupil_compare_rotations := some [] }
      else eA
    let eA := { eA with
      pupil_compare_errors := some ((eA.pupil_compare_errors.getD []) ++ [npMean o.errors]),
      pupil_compare_rotations := some ((eA.pupil_compare_rotations.getD []) ++ [animation_variable]) }
    match animation with
    | some (_ :: _) =>
      let eA := if biphasic then
          let eA := if eA.pupil_compare_reverse_errors = none then
              { eA with pupil_compare_reverse_errors := some [] } else eA
          let revSeries := (eA.pupil_compare_reverse_errors.getD []) ++ [npMean o.reverse_errs]
          { eA with pupil_compare_reverse_errors := some revSeries }
        else eA
      { o with errorAx := eA, raised := false }
    | _ => { o with errorAx := eA, raised := true }
  else o

/-- Embedding of `compare_3d_vectormaps` (basics.py lines 472-782): the
argument prologue, the four panel calls, and the total-error panel.  The
`kwargs1` and `kwargs2` arguments are accepted and then discarded by
lines 531-532, so they do not reach either stage.  `illustrate` selects
the illustration panel, which is image drawing only (lines 586-710) and
owns no modelled state. -/
def compare_3d_vectormaps (fE : FieldErrorFn) (m1 m2 : Analyser)
    (errorAx : ErrorAxState) (diffAx biphAx : AxState)
    (_illustrate total_error : Bool) (animation : Option (List ℚ))
    (animation_type : Option String) (animation_variable : ℚ) (biphasic : Bool)
    (kwargs1 kwargs2 : VKwargs) (kwargsD : DKwargs) (kwargs : VKwargs) : CompareOutcome :=
  compareTotalError total_error biphasic animation animation_variable
    (comparePanels fE (compareSetup m1 m2 animation_type animation_variable kwargsD kwargs)
      errorAx diffAx biphAx animation_type biphasic)

/-- The per-view arguments of one Comparison Orchestrator call made by the
Multi-View Orchestrator: camera elevation and azimuth, and the
`illustrate` / `total_error` flags and `kwargsD['colorbar']` value passed. -/
structure ViewSpec where
  elev : ℚ
  azim : ℚ
  illustrate : Bool
  total_error : Bool
  colorbar : Bool
deriving DecidableEq

/-- Result of `compare_3d_vectormaps_manyviews`: final analysers, the
shared total-error axes, the three per-view difference-map and biphasic
axes, the per-view argument record of the Comparison Orchestrator calls
actually made (in order), and the exception flag. -/
structure ManyviewsOutcome where
  m1 : Analyser
  m2 : Analyser
  errorAx : ErrorAxState
  diffAxes : List AxState
  biphAxes : List AxState
  specs : List ViewSpec
  raised : Bool

/-- Embedding of `compare_3d_vectormaps_manyviews` (basics.py lines
795-940).  The layout bookkeeping (subplot geometry, titles, the
`illustrate_ax` / `colorbar_ax` creation, `error_ax.clear()` — which
clears drawn artists but not the `pupil_compare_*` attributes) is
rendering-only.  The modelled core is the loop of lines 919-934: three
`compare_3d_vectormaps` calls with `views = [[50,90],[0,90],[-50,90]]`
written into `viewargs` (a deep copy of the caller kwargs), where only
the first call gets `illustrate=True, total_error=True` and
`kwargsD={'colorbar': True, 'colorbar_ax': …}`, and the later calls get
`illustrate=False, total_error=False, kwargsD={'colorbar': False}`;
`biphasic` is set (line 810-813) iff `animation_type` is a tilt type.
An exception from a call skips the remaining calls. -/
def compare_3d_vectormaps_manyviews (fE : FieldErrorFn) (m1 m2 : Analyser)
    (errorAx : ErrorAxState) (ax1 ax2 ax3 b1 b2 b3 : AxState)
    (animation : Option (List ℚ)) (animation_type : Option String)
    (animation_variable : ℚ) (kwargs : VKwargs) : ManyviewsOutcome :=
  let biphasic := animation_type = some "pitch_rot" ∨ animation_type = some "yaw_rot"
    ∨ animation_type = some "roll_rot"
  let spec1 : ViewSpec := ⟨50, 90, true, true, true⟩
  let spec2 : ViewSpec := ⟨0, 90, false, false, false⟩
  let spec3 : ViewSpec := ⟨-50, 90, false, false, false⟩
  let o1 := compare_3d_vectormaps fE m1 m2 errorAx ax1 b1 true true animation
    animation_type animation_variable biphasic noVKwargs noVKwargs
    ⟨none, some true, some ()⟩ { kwargs with elev := some 50, azim := some 90 }
  if o1.raised then
    ⟨o1.m1, o1.m2, o1.errorAx, [o1.diffAx, ax2, ax3], [o1.biphAx, b2, b3], [spec1], true⟩
  else
    let o2 := compare_3d_vectormaps fE o1.m1 o1.m2 o1.errorAx ax2 b2 false false animation
      animation_type animation_variable biphasic noVKwargs noVKwargs
      ⟨none, some false, none⟩ { kwargs with elev := some 0, azim := some 90 }
    if o2.raised then
      ⟨o2.m1, o2.m2, o2.errorAx, [o1.diffAx, o2.diffAx, ax3], [o1.biphAx, o2.biphAx, b3],
        [spec1, spec2], true⟩
    else
      let o3 := compare_3d_vectormaps fE o2.m1 o2.m2 o2.errorAx ax3 b3 false false animation
        animation_type animation_variable biphasic noVKwargs noVKwargs
        ⟨none, some false, none⟩ { kwargs with elev := some (-50), azim := some 90 }
      ⟨o3.m1, o3.m2, o3.errorAx, [o1.diffAx, o2.diffAx, o3.diffAx],
        [o1.biphAx, o2.biphAx, o3.biphAx], [spec1, spec2, spec3], o3.raised⟩

/-! Concrete fixtures used to settle the claims on executable inputs:
an extractor returning `n` constant point/vector pairs for every eye and
state, a `field_error` collaborator returning `1/2` per reference point,
and small analysers built from them. -/

/-- A geometry provider returning `n` sampled points with unit vectors,
for every eye and transform state. -/
def constExtract (n : ℕ) : ExtractFn :=
  fun _ _ => some (List.replicate n ((0 : ℚ), (0 : ℚ), (0 : ℚ)),
    List.replicate n ((1 : ℚ), (0 : ℚ), (0 : ℚ)))

/-- An error-field calculator honouring the `field_error` contract: one
scalar (here `1/2`) per reference point. -/
def fETest : FieldErrorFn :=
  fun pA _ _ _ _ => pA.map (fun _ => (1 : ℚ)/2)

/-- A concrete analyser with the given class name, eye list, rotation and
pitch, whose extractor always returns `n` sampled points. -/
def mTest (cn : String) (eyes : List String) (vr : ℚ) (pr : Option ℚ) (n : ℕ) : Analyser :=
  ⟨cn, ["MAnalyser"], eyes, ⟨vr, pr, none, none⟩, constExtract n⟩

/-- A concrete analyser whose every `get_3d_vectors` call raises
(`strict=True` finding no data). -/
def mFailTest : Analyser :=
  ⟨"MAnalyser", ["MAnalyser"], ["left"], ⟨10, none, none, none⟩, fun _ _ => none⟩

/-- Proof gadget relating a reverse-phase difference-map loop state to the
plain one: every accumulated per-eye error field is reversed. -/
def mapRevState (st : DiffLoopState) : DiffLoopState :=
  { st with all_errors := st.all_errors.map reverseField }

/-- Totality of an extraction collaborator: no `get_3d_vectors` call
raises. -/
def ExtractTotal (ex : ExtractFn) : Prop :=
  ∀ e ts, (ex e ts).isSome

/-! Infrastructure lemmas about the single-map renderer's loops. -/

theorem vmExtract_raised (ex : ExtractFn) (h : ExtractTotal ex) (st : VmState) (eye : String) :
    (vmExtract ex st eye).raised = st.raised := by
  unfold vmExtract
  by_cases hr : st.raised
  · simp [hr]
  · rcases hx : ex eye st.ts with _ | v
    · exact absurd (h eye st.ts) (by simp [hx])
    · simp [hr, hx]

theorem vm_foldExtract_raised (ex : ExtractFn) (h : ExtractTotal ex) :
    ∀ (eyes : List String) (st : VmState),
      (eyes.foldl (vmExtract ex) st).raised = st.raised := by
  intro eyes
  induction eyes with
  | nil => intro st; rfl
  | cons e es ih =>
    intro st
    simpa [List.foldl_cons, vmExtract_raised ex h st e] using ih (vmExtract ex st e)

theorem vmStep_raised (ex : ExtractFn) (h : ExtractTotal ex) (rot : ℚ) (st : VmState)
    (eye : String) : (vmStep ex rot st eye).raised = st.raised := by
  unfold vmStep
  by_cases hr : st.raised
  · simp [hr]
  · simp [hr, vmExtract_raised ex h]

theorem vm_foldStep_raised (ex : ExtractFn) (h : ExtractTotal ex) (rot : ℚ) :
    ∀ (eyes : List String) (st : VmState),
      (eyes.foldl (vmStep ex rot) st).raised = st.raised := by
  intro eyes
  induction eyes with
  | nil => intro st; rfl
  | cons e es ih =>
    intro st
    simpa [List.foldl_cons, vmStep_raised ex h rot st e] using ih (vmStep ex rot st e)

theorem vm_foldfold_raised (ex : ExtractFn) (h : ExtractTotal ex) (eyes : List String) :
    ∀ (rots : List ℚ) (st : VmState),
      (rots.foldl (fun st rot => eyes.foldl (vmStep ex rot) st) st).raised = st.raised := by
  intro rots
  induction rots with
  | nil => intro st; rfl
  | cons r rs ih =>
    intro st
    simpa [List.foldl_cons, vm_foldStep_raised ex h r eyes st] using
      ih (eyes.foldl (vmStep ex r) st)

theorem vectormap_raised_false (m : Analyser) (arr : List ℚ) (rh : Bool)
    (p r y : Option ℚ) (at_ : Option String) (h : ExtractTotal m.extract) :
    (plot_3d_vectormap m arr rh p r y at_).raised = false := by
  unfold plot_3d_vectormap
  simp only [vm_foldfold_raised m.extract h]
  split
  · simp [vm_foldExtract_raised m.extract h]
  · rfl

theorem vectormap_fields (m : Analyser) (arr : List ℚ) (rh : Bool)
    (p r y : Option ℚ) (at_ : Option String) :
    (plot_3d_vectormap m arr rh p r y at_).manalyser.extract = m.extract ∧
    (plot_3d_vectormap m arr rh p r y at_).manalyser.eyes = m.eyes ∧
    (plot_3d_vectormap m arr rh p r y at_).manalyser.className = m.className ∧
    (plot_3d_vectormap m arr rh p r y at_).manalyser.subClassNames = m.subClassNames := by
  unfold plot_3d_vectormap
  refine ⟨?_, ?_, ?_, ?_⟩ <;> (dsimp only; repeat' split) <;> rfl

theorem vectormap_vr_restored (m : Analyser) (arr : List ℚ) (rh : Bool)
    (p r y : Option ℚ) (at_ : Option String)
    (h : (plot_3d_vectormap m arr rh p r y at_).raised = false) :
    (plot_3d_vectormap m arr rh p r y at_).manalyser.ts.vector_rotation =
      m.ts.vector_rotation := by
  unfold plot_3d_vectormap at h ⊢
  simp only at h ⊢
  simp [h]

/-! Infrastructure lemmas about the difference-map renderer's eye loop. -/

theorem diffEyeStep_raised (fE : FieldErrorFn) (e1 e2 : ExtractFn) (ts1 ts2 : TransformState)
    (c rv : Bool) (h1 : ExtractTotal e1) (h2 : ExtractTotal e2) (st : DiffLoopState)
    (eye : String) : (diffEyeStep fE e1 e2 ts1 ts2 c rv st eye).raised = st.raised := by
  unfold diffEyeStep
  by_cases hr : st.raised
  · simp [hr]
  · rcases hx1 : e1 eye ts1 with _ | v1
    · exact absurd (h1 eye ts1) (by simp [hx1])
    · rcases hx2 : e2 eye ts2 with _ | v2
      · exact absurd (h2 eye ts2) (by simp [hx2])
      · simp [hr, hx1, hx2]

theorem diffEyeStep_len (fE : FieldErrorFn) (e1 e2 : ExtractFn) (ts1 ts2 : TransformState)
    (c rv : Bool) (h1 : ExtractTotal e1) (h2 : ExtractTotal e2) (st : DiffLoopState)
    (eye : String) (hr : st.raised = false) :
    (diffEyeStep fE e1 e2 ts1 ts2 c rv st eye).all_errors.length =
      st.all_errors.length + 1 := by
  unfold diffEyeStep
  rcases hx1 : e1 eye ts1 with _ | v1
  · exact absurd (h1 eye ts1) (by simp [hx1])
  · rcases hx2 : e2 eye ts2 with _ | v2
    · exact absurd (h2 eye ts2) (by simp [hx2])
    · simp [hr, hx1, hx2]

theorem diff_fold_raised (fE : FieldErrorFn) (e1 e2 : ExtractFn) (c rv : Bool)
    (h1 : ExtractTotal e1) (h2 : ExtractTotal e2) :
    ∀ (ts1 ts2 : TransformState) (eyes : List String) (st : DiffLoopState),
      (eyes.foldl (diffEyeStep fE e1 e2 ts1 ts2 c rv) st).raised = st.raised := by
  intro ts1 ts2 eyes
  induction eyes with
  | nil => intro st; rfl
  | cons e es ih =>
    intro st
    simpa [List.foldl_cons, diffEyeStep_raised fE e1 e2 ts1 ts2 c rv h1 h2 st e] using
      ih (diffEyeStep fE e1 e2 ts1 ts2 c rv st e)

theorem diff_fold_len (fE : FieldErrorFn) (e1 e2 : ExtractFn) (c rv : Bool)
    (h1 : ExtractTotal e1) (h2 : ExtractTotal e2) :
    ∀ (ts1 ts2 : TransformState) (eyes : List String) (st : DiffLoopState),
      st.raised = false →
      (eyes.foldl (diffEyeStep fE e1 e2 ts1 ts2 c rv) st).all_errors.length =
        st.all_errors.length + eyes.length := by
  intro ts1 ts2 eyes
  induction eyes with
  | nil => intro st _; simp
  | cons e es ih =>
    intro st hr
    have h2r : (diffEyeStep fE e1 e2 ts1 ts2 c rv st e).raised = false := by
      rw [diffEyeStep_raised fE e1 e2 ts1 ts2 c rv h1 h2 st e]; exact hr
    have := ih (diffEyeStep fE e1 e2 ts1 ts2 c rv st e) h2r
    simp only [List.foldl_cons, this,
      diffEyeStep_len fE e1 e2 ts1 ts2 c rv h1 h2 st e hr, List.length_cons]
    ring

theorem diff_fold_not_isEmpty (fE : FieldErrorFn) (e1 e2 : ExtractFn) (c rv : Bool)
    (h1 : ExtractTotal e1) (h2 : ExtractTotal e2) :
    ∀ (ts1 ts2 : TransformState) (eyes : List String), eyes ≠ [] →
      ((eyes.foldl (diffEyeStep fE e1 e2 ts1 ts2 c rv) ⟨[], [], false⟩).all_errors.isEmpty)
        = false := by
  intro ts1 ts2 eyes he
  have hlen := diff_fold_len fE e1 e2 c rv h1 h2 ts1 ts2 eyes ⟨[], [], false⟩ rfl
  simp only [List.isEmpty_eq_false, ne_eq]
  intro hnil
  rw [hnil] at hlen
  simp at hlen
  exact he (List.length_eq_zero.mp hlen.symm)

theorem diffmap_raised_false (fE : FieldErrorFn) (m1 m2 : Analyser) (ax : AxState)
    (c cb : Bool) (cax : Option Unit) (rv : Bool) (arr : List ℚ) (p y r : Option ℚ)
    (h1 : ExtractTotal m1.extract) (h2 : ExtractTotal m2.extract) (he : m1.eyes ≠ []) :
    (plot_3d_differencemap fE m1 m2 ax c cb cax rv arr p y r).raised = false := by
  unfold plot_3d_differencemap
  dsimp only
  rw [diff_fold_raised fE m1.extract m2.extract c rv h1 h2,
    diff_fold_not_isEmpty fE m1.extract m2.extract c rv h1 h2 _ _ _ he]
  rfl

theorem diffTs2_vr (ts : TransformState) (arr : List ℚ) (p y r : Option ℚ) (h : arr = []) :
    (diffTs2 ts arr p y r).vector_rotation = ts.vector_rotation := by
  unfold diffTs2
  repeat' split <;> simp_all

theorem diffTs2_pitch (ts : TransformState) (arr : List ℚ) (p y r : Option ℚ)
    (h : p.isSome = true) : (diffTs2 ts arr p y r).pitch_rot = p := by
  unfold diffTs2
  repeat' split <;> simp_all

theorem diffTs2_yaw (ts : TransformState) (arr : List ℚ) (p y r : Option ℚ)
    (h : y.isSome = true) : (diffTs2 ts arr p y r).yaw_rot = y := by
  unfold diffTs2
  repeat' split <;> simp_all

theorem diffTs2_roll (ts : TransformState) (arr : List ℚ) (p y r : Option ℚ)
    (h : r.isSome = true) : (diffTs2 ts arr p y r).roll_rot = r := by
  unfold diffTs2
  repeat' split <;> simp_all

theorem diffmap_vr_restored (fE : FieldErrorFn) (m1 m2 : Analyser) (ax : AxState)
    (c cb : Bool) (cax : Option Unit) (rv : Bool) (arr : List ℚ) (p y r : Option ℚ)
    (h : (plot_3d_differencemap fE m1 m2 ax c cb cax rv arr p y r).raised = false) :
    (plot_3d_differencemap fE m1 m2 ax c cb cax rv arr p y r).m2.ts.vector_rotation =
      m2.ts.vector_rotation := by
  unfold plot_3d_differencemap at h ⊢
  dsimp only at h ⊢
  by_cases ha : arr = []
  · subst ha
    rw [if_neg (by simp)]
    exact diffTs2_vr m2.ts [] p y r rfl
  · rw [if_pos ⟨h, ha⟩]

theorem diffmap_tilt_persists (fE : FieldErrorFn) (m1 m2 : Analyser) (ax : AxState)
    (c cb : Bool) (cax : Option Unit) (rv : Bool) (arr : List ℚ) (p y r : Option ℚ) :
    ((plot_3d_differencemap fE m1 m2 ax c cb cax rv arr p y r).m2.ts.pitch_rot
        = if p.isSome then p else (diffTs2 m2.ts arr p y r).pitch_rot) ∧
    ((plot_3d_differencemap fE m1 m2 ax c cb cax rv arr p y r).m2.ts.yaw_rot
        = if y.isSome then y else (diffTs2 m2.ts arr p y r).yaw_rot) ∧
    ((plot_3d_differencemap fE m1 m2 ax c cb cax rv arr p y r).m2.ts.roll_rot
        = if r.isSome then r else (diffTs2 m2.ts arr p y r).roll_rot) := by
  unfold plot_3d_differencemap
  dsimp only
  refine ⟨?_, ?_, ?_⟩ <;> (repeat' split) <;>
    simp_all [diffTs2_pitch, diffTs2_yaw, diffTs2_roll]

theorem diffmap_ax_no_colorbar (fE : FieldErrorFn) (m1 m2 : Analyser) (ax : AxState)
    (c : Bool) (cax : Option Unit) (rv : Bool) (arr : List ℚ) (p y r : Option ℚ) :
    (plot_3d_differencemap fE m1 m2 ax c false cax rv arr p y r).ax = ax := by
  unfold plot_3d_differencemap
  dsimp only
  rw [if_neg (by simp)]

theorem diffmap_ax_marker_skip (fE : FieldErrorFn) (m1 m2 : Analyser) (ax : AxState)
    (c cb : Bool) (cax : Option Unit) (rv : Bool) (arr : List ℚ) (p y r : Option ℚ)
    (hm : ax.differencemap_colorbar ≠ none) :
    (plot_3d_differencemap fE m1 m2 ax c cb cax rv arr p y r).ax = ax := by
  unfold plot_3d_differencemap
  dsimp only
  rw [if_neg (by simp [hm])]

theorem diffmap_ax_attach (fE : FieldErrorFn) (m1 m2 : Analyser) (ax : AxState)
    (c : Bool) (cax : Option Unit) (rv : Bool) (arr : List ℚ) (p y r : Option ℚ)
    (hm : ax.differencemap_colorbar = none)
    (h : (plot_3d_differencemap fE m1 m2 ax c true cax rv arr p y r).raised = false) :
    (plot_3d_differencemap fE m1 m2 ax c true cax rv arr p y r).ax =
      ⟨some (), ax.colorbar_count + 1⟩ := by
  unfold plot_3d_differencemap at h ⊢
  dsimp only at h ⊢
  rw [if_pos ⟨h, rfl, hm⟩]

theorem diffmap_errors_flatten (fE : FieldErrorFn) (m1 m2 : Analyser) (ax : AxState)
    (c cb : Bool) (cax : Option Unit) (rv : Bool) (arr : List ℚ) (p y r : Option ℚ) :
    (plot_3d_differencemap fE m1 m2 ax c cb cax rv arr p y r).errors =
      (plot_3d_differencemap fE m1 m2 ax c cb cax rv arr p y r).per_eye_errors.flatten := by
  unfold plot_3d_differencemap
  dsimp only

theorem diffmap_m2_fields (fE : FieldErrorFn) (m1 m2 : Analyser) (ax : AxState)
    (c cb : Bool) (cax : Option Unit) (rv : Bool) (arr : List ℚ) (p y r : Option ℚ) :
    (plot_3d_differencemap fE m1 m2 ax c cb cax rv arr p y r).m2.extract = m2.extract ∧
    (plot_3d_differencemap fE m1 m2 ax c cb cax rv arr p y r).m2.eyes = m2.eyes ∧
    (plot_3d_differencemap fE m1 m2 ax c cb cax rv arr p y r).m2.className = m2.className ∧
    (plot_3d_differencemap fE m1 m2 ax c cb cax rv arr p y r).m2.subClassNames
      = m2.subClassNames := by
  unfold plot_3d_differencemap
  refine ⟨rfl, rfl, rfl, rfl⟩

/-! The reverse-errors relation between two otherwise identical
difference-map runs. -/

theorem diffEyeStep_rev (fE : FieldErrorFn) (e1 e2 : ExtractFn) (ts1 ts2 : TransformState)
    (c : Bool) (st : DiffLoopState) (eye : String) :
    diffEyeStep fE e1 e2 ts1 ts2 c true (mapRevState st) eye =
      mapRevState (diffEyeStep fE e1 e2 ts1 ts2 c false st eye) := by
  unfold diffEyeStep mapRevState
  by_cases hr : st.raised
  · simp [hr]
  · rcases hx1 : e1 eye ts1 with _ | v1
    · simp [hr, hx1]
    · rcases hx2 : e2 eye ts2 with _ | v2
      · simp [hr, hx1, hx2]
      · simp [hr, hx1, hx2]

theorem diff_fold_rev (fE : FieldErrorFn) (e1 e2 : ExtractFn) (ts1 ts2 : TransformState)
    (c : Bool) : ∀ (eyes : List String) (st : DiffLoopState),
      eyes.foldl (diffEyeStep fE e1 e2 ts1 ts2 c true) (mapRevState st) =
        mapRevState (eyes.foldl (diffEyeStep fE e1 e2 ts1 ts2 c false) st) := by
  intro eyes
  induction eyes with
  | nil => intro st; rfl
  | cons e es ih =>
    intro st
    simp only [List.foldl_cons, diffEyeStep_rev fE e1 e2 ts1 ts2 c st e]
    exact ih (diffEyeStep fE e1 e2 ts1 ts2 c false st e)

theorem diffmap_reverse_rel (fE : FieldErrorFn) (m1 m2 : Analyser) (ax : AxState)
    (c cb : Bool) (cax : Option Unit) (arr : List ℚ) (p y r : Option ℚ) :
    (plot_3d_differencemap fE m1 m2 ax c cb cax true arr p y r).errors =
      reverseField ((plot_3d_differencemap fE m1 m2 ax c cb cax false arr p y r).errors) := by
  unfold plot_3d_differencemap
  dsimp only
  have h0 : (⟨[], [], false⟩ : DiffLoopState) = mapRevState ⟨[], [], false⟩ := rfl
  conv_lhs => rw [h0]
  rw [diff_fold_rev fE m1.extract m2.extract]
  unfold mapRevState reverseField
  simp [List.map_flatten]

/-! Infrastructure lemmas about the comparison orchestrator. -/

theorem comparePanels_errorAx (fE : FieldErrorFn) (s : CompareSetup) (eA : ErrorAxState)
    (dAx bAx : AxState) (at_ : Option String) (bi : Bool) :
    (comparePanels fE s eA dAx bAx at_ bi).errorAx = eA := by
  unfold comparePanels
  dsimp only
  simp only [apply_ite CompareOutcome.errorAx, ite_self]

theorem compareTotalError_notte (bi : Bool) (an : Option (List ℚ)) (av : ℚ)
    (o : CompareOutcome) : compareTotalError false bi an av o = o := by
  unfold compareTotalError
  split <;> rfl

theorem compareTotalError_diffAx (te bi : Bool) (an : Option (List ℚ)) (av : ℚ)
    (o : CompareOutcome) : (compareTotalError te bi an av o).diffAx = o.diffAx := by
  unfold compareTotalError
  rcases an with _ | ⟨_ | ⟨a, l⟩⟩ <;> by_cases ho : o.raised <;> by_cases hte : te <;>
    by_cases hbi : bi <;> simp [ho, hte, hbi]

theorem compareTotalError_raised_mono (te bi : Bool) (an : Option (List ℚ)) (av : ℚ)
    (o : CompareOutcome) (h : (compareTotalError te bi an av o).raised = false) :
    o.raised = false := by
  unfold compareTotalError at h
  by_cases ho : o.raised
  · rw [if_pos ho] at h
    exact h
  · simp only [Bool.not_eq_true] at ho
    exact ho

theorem compareTotalError_rotations (bi : Bool) (an : Option (List ℚ)) (av : ℚ)
    (o : CompareOutcome) (h : (compareTotalError true bi an av o).raised = false) :
    (compareTotalError true bi an av o).errorAx.pupil_compare_rotations =
      some ((if o.errorAx.pupil_compare_errors = none then []
        else o.errorAx.pupil_compare_rotations.getD []) ++ [av]) := by
  have ho := compareTotalError_raised_mono true bi an av o h
  unfold compareTotalError at h ⊢
  rw [if_neg (by simp [ho])] at h ⊢
  rw [if_pos rfl] at h ⊢
  rcases an with _ | ⟨_ | ⟨a, l⟩⟩
  · exact absurd h (by simp)
  · exact absurd h (by simp)
  · dsimp only
    by_cases he : o.errorAx.pupil_compare_errors = none <;>
      by_cases hbi : bi <;>
      simp [he, hbi, apply_ite ErrorAxState.pupil_compare_rotations, ite_self]

theorem compare_errorAx_notte (fE : FieldErrorFn) (m1 m2 : Analyser) (eA : ErrorAxState)
    (dAx bAx : AxState) (il : Bool) (an : Option (List ℚ)) (at_ : Option String) (av : ℚ)
    (bi : Bool) (k1 k2 : VKwargs) (kD : DKwargs) (kw : VKwargs) :
    (compare_3d_vectormaps fE m1 m2 eA dAx bAx il false an at_ av bi k1 k2 kD kw).errorAx
      = eA := by
  unfold compare_3d_vectormaps
  rw [compareTotalError_notte]
  exact comparePanels_errorAx _ _ _ _ _ _ _

theorem compare_rotations_append (fE : FieldErrorFn) (m1 m2 : Analyser) (eA : ErrorAxState)
    (dAx bAx : AxState) (il : Bool) (an : Option (List ℚ)) (at_ : Option String) (av : ℚ)
    (bi : Bool) (k1 k2 : VKwargs) (kD : DKwargs) (kw : VKwargs)
    (h : (compare_3d_vectormaps fE m1 m2 eA dAx bAx il true an at_ av bi k1 k2 kD kw).raised
      = false) :
    (compare_3d_vectormaps fE m1 m2 eA dAx bAx il true an at_ av bi k1 k2
      kD kw).errorAx.pupil_compare_rotations
      = some ((if eA.pupil_compare_errors = none then []
          else eA.pupil_compare_rotations.getD []) ++ [av]) := by
  unfold compare_3d_vectormaps at h ⊢
  have hr := compareTotalError_rotations bi an av _ h
  rw [comparePanels_errorAx] at hr
  exact hr

theorem compareSetup_colorbar (m1 m2 : Analyser) (at_ : Option String) (av : ℚ)
    (kD : DKwargs) (kw : VKwargs) :
    (compareSetup m1 m2 at_ av kD kw).kwargsD.colorbar = kD.colorbar := by
  unfold compareSetup
  dsimp only
  simp only [apply_ite Prod.snd, apply_ite Prod.fst, apply_ite DKwargs.colorbar, ite_self]

theorem comparePanels_diffAx_nocb (fE : FieldErrorFn) (s : CompareSetup) (eA : ErrorAxState)
    (dAx bAx : AxState) (at_ : Option String) (bi : Bool)
    (hcb : s.kwargsD.colorbar = some false) :
    (comparePanels fE s eA dAx bAx at_ bi).diffAx = dAx := by
  unfold comparePanels
  dsimp only
  simp only [hcb, Option.getD_some, diffmap_ax_no_colorbar,
    apply_ite CompareOutcome.diffAx, ite_self]

theorem comparePanels_diffAx_attach (fE : FieldErrorFn) (s : CompareSetup) (eA : ErrorAxState)
    (bAx : AxState) (at_ : Option String) (bi : Bool)
    (hcb : s.kwargsD.colorbar = some true)
    (hp : (comparePanels fE s eA freshAx bAx at_ bi).raised = false) :
    (comparePanels fE s eA freshAx bAx at_ bi).diffAx = ⟨some (), 1⟩ := by
  unfold comparePanels at hp ⊢
  dsimp only at hp ⊢
  simp only [hcb, Option.getD_some] at hp ⊢
  repeat' split at hp
  all_goals simp_all
  all_goals exact diffmap_ax_attach _ _ _ _ _ _ _ _ _ _ _ rfl (by assumption)

theorem compare_diffAx_nocb (fE : FieldErrorFn) (m1 m2 : Analyser) (eA : ErrorAxState)
    (dAx bAx : AxState) (il te : Bool) (an : Option (List ℚ)) (at_ : Option String)
    (av : ℚ) (bi : Bool) (k1 k2 : VKwargs) (kD : DKwargs) (kw : VKwargs)
    (hcb : kD.colorbar = some false) :
    (compare_3d_vectormaps fE m1 m2 eA dAx bAx il te an at_ av bi k1 k2 kD kw).diffAx
      = dAx := by
  unfold compare_3d_vectormaps
  rw [compareTotalError_diffAx]
  exact comparePanels_diffAx_nocb fE _ eA dAx bAx at_ bi
    (by rw [compareSetup_colorbar]; exact hcb)

theorem compare_diffAx_attach (fE : FieldErrorFn) (m1 m2 : Analyser) (eA : ErrorAxState)
    (bAx : AxState) (il te : Bool) (an : Option (List ℚ)) (at_ : Option String)
    (av : ℚ) (bi : Bool) (k1 k2 : VKwargs) (kD : DKwargs) (kw : VKwargs)
    (hcb : kD.colorbar = some true)
    (h : (compare_3d_vectormaps fE m1 m2 eA freshAx bAx il te an at_ av bi k1 k2 kD kw).raised
      = false) :
    (compare_3d_vectormaps fE m1 m2 eA freshAx bAx il te an at_ av bi k1 k2 kD kw).diffAx
      = ⟨some (), 1⟩ := by
  unfold compare_3d_vectormaps at h ⊢
  rw [compareTotalError_diffAx]
  exact comparePanels_diffAx_attach fE _ eA bAx at_ bi
    (by rw [compareSetup_colorbar]; exact hcb)
    (compareTotalError_raised_mono _ _ _ _ _ h)

/-! The claims. -/

/-- C1: the claim states that for a `compare_3d_vectormaps` call with a
tilt `animation_type` and a scalar animation variable, Panel 2's
`get_3d_vectors` extraction sees entity 2's corresponding tilt attribute
equal to the animation variable.  The code does route the variable into
`kwargs2`, but `plot_3d_vectormap` hands its tilt parameters to
`_set_analyser_attributes` as the positional `analyser` argument with no
keyword arguments, so the attribute is never written: in a pitch sweep
with animation variable 45 over an entity whose `pitch_rot` is 0, Panel
2's one extraction call still sees `pitch_rot = 0`.  (The difference-map
panel, which writes the attribute itself, does see the tilt — only the
Panel 2 render contradicts the claim.) -/
theorem panel2_tilt_not_injected :
    (compare_3d_vectormaps fETest (mTest "MAnalyser" ["left"] 0 (some 0) 2)
      (mTest "MAnalyser" ["left"] 0 (some 0) 2) freshErrorAx freshAx freshAx
      false true (some [-45, 0, 45]) (some "pitch_rot") 45 false
      noVKwargs noVKwargs noDKwargs noVKwargs).raised = false ∧
    (compare_3d_vectormaps fETest (mTest "MAnalyser" ["left"] 0 (some 0) 2)
      (mTest "MAnalyser" ["left"] 0 (some 0) 2) freshErrorAx freshAx freshAx
      false true (some [-45, 0, 45]) (some "pitch_rot") 45 false
      noVKwargs noVKwargs noDKwargs noVKwargs).panel2_trace.length = 1 ∧
    (∀ cl ∈ (compare_3d_vectormaps fETest (mTest "MAnalyser" ["left"] 0 (some 0) 2)
      (mTest "MAnalyser" ["left"] 0 (some 0) 2) freshErrorAx freshAx freshAx
      false true (some [-45, 0, 45]) (some "pitch_rot") 45 false
      noVKwargs noVKwargs noDKwargs noVKwargs).panel2_trace,
      cl.ts.pitch_rot = some 0 ∧ cl.ts.pitch_rot ≠ some 45) := by
  decide

/-- C2 counterexample: a `plot_3d_differencemap` call that supplies both a
rotation (`arrow_rotations = [29]`) and a tilt (`pitch_rot = 45`) to an
entity whose prior state is `vector_rotation = 10, pitch_rot = 0`
returns normally with `vector_rotation` restored to 10 but with
`pitch_rot` left at 45 — the tilt attributes are not restored, so the
claim that all four attributes equal their pre-call values is false. -/
theorem diffmap_tilt_not_restored_cex :
    (plot_3d_differencemap fETest (mTest "MAnalyser" ["left"] 0 none 2)
      (mTest "MAnalyser" ["left"] 10 (some 0) 2) freshAx true true none false
      [29] (some 45) none none).raised = false ∧
    (mTest "MAnalyser" ["left"] 10 (some 0) 2).ts.pitch_rot = some 0 ∧
    (plot_3d_differencemap fETest (mTest "MAnalyser" ["left"] 0 none 2)
      (mTest "MAnalyser" ["left"] 10 (some 0) 2) freshAx true true none false
      [29] (some 45) none none).m2.ts.pitch_rot = some 45 ∧
    (plot_3d_differencemap fETest (mTest "MAnalyser" ["left"] 0 none 2)
      (mTest "MAnalyser" ["left"] 10 (some 0) 2) freshAx true true none false
      [29] (some 45) none none).m2.ts.vector_rotation = 10 := by
  decide

/-- C2 (amended): after a `plot_3d_differencemap` call that returns
normally, entity B's `vector_rotation` equals its value from before the
call; but a supplied tilt override is not restored — each of
`pitch_rot` / `yaw_rot` / `roll_rot`, when supplied, remains at the
supplied value after the call. -/
theorem diffmap_restores_rotation_not_tilt :
    ∀ (fE : FieldErrorFn) (m1 m2 : Analyser) (ax : AxState) (c cb : Bool)
      (cax : Option Unit) (rv : Bool) (arr : List ℚ) (p y r : Option ℚ),
    ((plot_3d_differencemap fE m1 m2 ax c cb cax rv arr p y r).raised = false →
      (plot_3d_differencemap fE m1 m2 ax c cb cax rv arr p y r).m2.ts.vector_rotation
        = m2.ts.vector_rotation) ∧
    (p.isSome = true →
      (plot_3d_differencemap fE m1 m2 ax c cb cax rv arr p y r).m2.ts.pitch_rot = p) ∧
    (y.isSome = true →
      (plot_3d_differencemap fE m1 m2 ax c cb cax rv arr p y r).m2.ts.yaw_rot = y) ∧
    (r.isSome = true →
      (plot_3d_differencemap fE m1 m2 ax c cb cax rv arr p y r).m2.ts.roll_rot = r) := by
  intro fE m1 m2 ax c cb cax rv arr p y r
  obtain ⟨hp, hy, hr⟩ := diffmap_tilt_persists fE m1 m2 ax c cb cax rv arr p y r
  refine ⟨diffmap_vr_restored fE m1 m2 ax c cb cax rv arr p y r, ?_, ?_, ?_⟩
  · intro hs; rw [hp, if_pos hs]
  · intro hs; rw [hy, if_pos hs]
  · intro hs; rw [hr, if_pos hs]

/-- C2 witness: the amended statement evaluated on a concrete run — the
rotation comes back to 10 while the supplied pitch 45 persists. -/
theorem diffmap_restores_rotation_not_tilt_witness :
    (plot_3d_differencemap fETest (mTest "MAnalyser" ["left"] 0 none 2)
      (mTest "MAnalyser" ["left"] 10 (some 0) 2) freshAx true true none false
      [29] (some 45) none none).m2.ts.vector_rotation =
      (mTest "MAnalyser" ["left"] 10 (some 0) 2).ts.vector_rotation ∧
    (plot_3d_differencemap fETest (mTest "MAnalyser" ["left"] 0 none 2)
      (mTest "MAnalyser" ["left"] 10 (some 0) 2) freshAx true true none false
      [29] (some 45) none none).m2.ts.pitch_rot = some 45 :=
  ⟨(diffmap_restores_rotation_not_tilt fETest (mTest "MAnalyser" ["left"] 0 none 2)
      (mTest "MAnalyser" ["left"] 10 (some 0) 2) freshAx true true none false
      [29] (some 45) none none).1 (by decide),
   (diffmap_restores_rotation_not_tilt fETest (mTest "MAnalyser" ["left"] 0 none 2)
      (mTest "MAnalyser" ["left"] 10 (some 0) 2) freshAx true true none false
      [29] (some 45) none none).2.1 (by decide)⟩

/-- C3 counterexample: an entity with `vector_rotation = 10` put through
`plot_3d_vectormap` with `arrow_rotations = [29]` whose extraction raises
is left with `vector_rotation = 29` — the restore on line 314 is plain
straight-line code, not a `finally` block, so the save/restore is not
exception-safe and the claim's "whether it returns normally or raises"
part is false. -/
theorem vectormap_raise_skips_restore_cex :
    (plot_3d_vectormap mFailTest [29] true none none none none).raised = true ∧
    mFailTest.ts.vector_rotation = 10 ∧
    (plot_3d_vectormap mFailTest [29] true none none none none).manalyser.ts.vector_rotation
      = 29 := by
  decide

/-- C3 (amended): the `vector_rotation` save/restore of both plotting
calls holds on every normal return — when no exception escapes, the
entity's `vector_rotation` after the call equals its value from before —
but it is not exception-safe: when an extraction raises, the rotation is
left at the last value assigned (see the counterexample). -/
theorem vr_restored_on_normal_return :
    (∀ (m : Analyser) (arr : List ℚ) (rh : Bool) (p r y : Option ℚ) (at_ : Option String),
      (plot_3d_vectormap m arr rh p r y at_).raised = false →
      (plot_3d_vectormap m arr rh p r y at_).manalyser.ts.vector_rotation
        = m.ts.vector_rotation) ∧
    (∀ (fE : FieldErrorFn) (m1 m2 : Analyser) (ax : AxState) (c cb : Bool)
      (cax : Option Unit) (rv : Bool) (arr : List ℚ) (p y r : Option ℚ),
      (plot_3d_differencemap fE m1 m2 ax c cb cax rv arr p y r).raised = false →
      (plot_3d_differencemap fE m1 m2 ax c cb cax rv arr p y r).m2.ts.vector_rotation
        = m2.ts.vector_rotation) :=
  ⟨vectormap_vr_restored, diffmap_vr_restored⟩

/-- C3 witness: a concrete normal return of each renderer with
`arrow_rotations = [29]` on an entity with `vector_rotation = 10` — the
rotation is restored. -/
theorem vr_restored_on_normal_return_witness :
    (plot_3d_vectormap (mTest "MAnalyser" ["left"] 10 none 2) [29] true none none none
      none).manalyser.ts.vector_rotation
      = (mTest "MAnalyser" ["left"] 10 none 2).ts.vector_rotation ∧
    (plot_3d_differencemap fETest (mTest "MAnalyser" ["left"] 0 none 2)
      (mTest "MAnalyser" ["left"] 10 none 2) freshAx true true none false [29] none none
      none).m2.ts.vector_rotation = (mTest "MAnalyser" ["left"] 10 none 2).ts.vector_rotation :=
  ⟨vr_restored_on_normal_return.1 (mTest "MAnalyser" ["left"] 10 none 2) [29] true none none
      none none (by decide),
   vr_restored_on_normal_return.2 fETest (mTest "MAnalyser" ["left"] 0 none 2)
      (mTest "MAnalyser" ["left"] 10 none 2) freshAx true true none false [29] none none
      none (by decide)⟩

/-- C7: reversing an error field is involutive (`1 - (1 - e) = e`
entrywise), and the `plot_3d_differencemap` run with
`reverse_errors=True` returns exactly the elementwise complement of the
otherwise-identical run with `reverse_errors=False`. -/
theorem reverse_errors_involution :
    (∀ es : List ℚ, reverseField (reverseField es) = es) ∧
    (∀ (fE : FieldErrorFn) (m1 m2 : Analyser) (ax : AxState) (c cb : Bool)
      (cax : Option Unit) (arr : List ℚ) (p y r : Option ℚ),
      (plot_3d_differencemap fE m1 m2 ax c cb cax true arr p y r).errors =
        reverseField ((plot_3d_differencemap fE m1 m2 ax c cb cax false arr p y r).errors)) := by
  refine ⟨?_, diffmap_reverse_rel⟩
  intro es
  have hf : ((fun e : ℚ => 1 - e) ∘ fun e : ℚ => 1 - e) = id := by
    funext e
    simp
  simp [reverseField, List.map_map, hf]

/-- C9: on an entity classified OAnalyser-typed, `plot_3d_vectormap`
called with `arrow_rotations = [0]` appends 29 to that very list in
place (the returned list is the caller's mutated object) and never
removes it: after the call the list is `[0, 29]`, not the `[0]` that was
passed.  When the shared default argument was used, the same in-place
append mutates the default object seen by later calls. -/
theorem oanalyser_appends_29 (m : Analyser) (rh : Bool) (p r y : Option ℚ)
    (at_ : Option String) (h : manalyser_type m [0] = "OAnalyser") :
    (plot_3d_vectormap m [0] rh p r y at_).arrow_rotations = [0, 29] ∧
    (plot_3d_vectormap m [0] rh p r y at_).arrow_rotations ≠ [0] := by
  unfold plot_3d_vectormap
  dsimp only
  rw [if_pos (show manalyser_type m [0] = "OAnalyser" ∧ ([0] : List ℚ) = [0] from ⟨h, rfl⟩)]
  exact ⟨rfl, by decide⟩

/-- C9 witness: a concrete `OAnalyser` with the default `[0]` rotation
list — after the call the caller's list is `[0, 29]`. -/
theorem oanalyser_appends_29_witness :
    manalyser_type (mTest "OAnalyser" ["left"] 5 none 2) [0] = "OAnalyser" ∧
    (plot_3d_vectormap (mTest "OAnalyser" ["left"] 5 none 2) [0] true none none none
      none).arrow_rotations = [0, 29] :=
  ⟨by decide, (oanalyser_appends_29 (mTest "OAnalyser" ["left"] 5 none 2) true none none none
      none (by decide)).1⟩

/-- C10: `compare_3d_vectormaps` does not depend on its `kwargs1` and
`kwargs2` arguments — two runs that differ only in those values produce
identical outcomes, because lines 531-532 overwrite both with copies of
the catch-all `**kwargs` before any use (only `kwargsD` is honoured as
supplied). -/
theorem compare_ignores_kwargs12 :
    ∀ (fE : FieldErrorFn) (m1 m2 : Analyser) (eA : ErrorAxState) (dAx bAx : AxState)
      (il te : Bool) (an : Option (List ℚ)) (at_ : Option String) (av : ℚ) (bi : Bool)
      (k1 k2 k1' k2' : VKwargs) (kD : DKwargs) (kw : VKwargs),
      compare_3d_vectormaps fE m1 m2 eA dAx bAx il te an at_ av bi k1 k2 kD kw =
        compare_3d_vectormaps fE m1 m2 eA dAx bAx il te an at_ av bi k1' k2' kD kw := by
  intro fE m1 m2 eA dAx bAx il te an at_ av bi k1 k2 k1' k2' kD kw
  rfl

/-- C4: sweeping `animation_type="pitch_rot"` over `[-45, 0, 45]` with
three `compare_3d_vectormaps` calls with `total_error=True` against the
same (initially fresh) target leaves the target's RunningErrorSeries
with exactly the animation variables `[-45, 0, 45]` in order, and the
`colinear` flag passed to the difference-map call was `False` in all
three; in general every accumulation call that completes appends exactly
one animation-variable entry to the given target's series (creating it
on first use), and a call with `total_error=False` leaves the target's
series untouched — targets are independent state threaded explicitly. -/
theorem pitch_sweep_series :
    (let m := mTest "MAnalyser" ["left"] 0 (some 0) 2
     let o1 := compare_3d_vectormaps fETest m m freshErrorAx freshAx freshAx
       false true (some [-45, 0, 45]) (some "pitch_rot") (-45) false noVKwargs noVKwargs
       noDKwargs noVKwargs
     let o2 := compare_3d_vectormaps fETest o1.m1 o1.m2 o1.errorAx o1.diffAx o1.biphAx
       false true (some [-45, 0, 45]) (some "pitch_rot") 0 false noVKwargs noVKwargs
       noDKwargs noVKwargs
     let o3 := compare_3d_vectormaps fETest o2.m1 o2.m2 o2.errorAx o2.diffAx o2.biphAx
       false true (some [-45, 0, 45]) (some "pitch_rot") 45 false noVKwargs noVKwargs
       noDKwargs noVKwargs
     o3.raised = false ∧
     o3.errorAx.pupil_compare_rotations = some [-45, 0, 45] ∧
     (o3.errorAx.pupil_compare_rotations.getD []).length = 3 ∧
     o1.diff_colinear = some false ∧ o2.diff_colinear = some false ∧
     o3.diff_colinear = some false) ∧
    (∀ (fE : FieldErrorFn) (m1 m2 : Analyser) (eA : ErrorAxState) (dAx bAx : AxState)
      (il : Bool) (an : Option (List ℚ)) (at_ : Option String) (av : ℚ) (bi : Bool)
      (k1 k2 : VKwargs) (kD : DKwargs) (kw : VKwargs),
      (compare_3d_vectormaps fE m1 m2 eA dAx bAx il true an at_ av bi k1 k2 kD kw).raised
        = false →
      (compare_3d_vectormaps fE m1 m2 eA dAx bAx il true an at_ av bi k1 k2
        kD kw).errorAx.pupil_compare_rotations
        = some ((if eA.pupil_compare_errors = none then []
            else eA.pupil_compare_rotations.getD []) ++ [av])) ∧
    (∀ (fE : FieldErrorFn) (m1 m2 : Analyser) (eA : ErrorAxState) (dAx bAx : AxState)
      (il : Bool) (an : Option (List ℚ)) (at_ : Option String) (av : ℚ) (bi : Bool)
      (k1 k2 : VKwargs) (kD : DKwargs) (kw : VKwargs),
      (compare_3d_vectormaps fE m1 m2 eA dAx bAx il false an at_ av bi k1 k2 kD kw).errorAx
        = eA) :=
  ⟨by decide, compare_rotations_append, compare_errorAx_notte⟩

/-- C4 witness: one accumulation call on a fresh target appends exactly
its animation variable, and a `total_error=False` call changes nothing. -/
theorem pitch_sweep_series_witness :
    (compare_3d_vectormaps fETest (mTest "MAnalyser" ["left"] 0 (some 0) 2)
      (mTest "MAnalyser" ["left"] 0 (some 0) 2) freshErrorAx freshAx freshAx
      false true (some [-45, 0, 45]) (some "pitch_rot") 7 false noVKwargs noVKwargs
      noDKwargs noVKwargs).errorAx.pupil_compare_rotations = some [7] ∧
    (compare_3d_vectormaps fETest (mTest "MAnalyser" ["left"] 0 (some 0) 2)
      (mTest "MAnalyser" ["left"] 0 (some 0) 2) freshErrorAx freshAx freshAx
      false false (some [-45, 0, 45]) (some "pitch_rot") 7 false noVKwargs noVKwargs
      noDKwargs noVKwargs).errorAx = freshErrorAx :=
  ⟨pitch_sweep_series.2.1 fETest (mTest "MAnalyser" ["left"] 0 (some 0) 2)
      (mTest "MAnalyser" ["left"] 0 (some 0) 2) freshErrorAx freshAx freshAx
      false (some [-45, 0, 45]) (some "pitch_rot") 7 false noVKwargs noVKwargs
      noDKwargs noVKwargs (by decide),
   pitch_sweep_series.2.2 fETest (mTest "MAnalyser" ["left"] 0 (some 0) 2)
      (mTest "MAnalyser" ["left"] 0 (some 0) 2) freshErrorAx freshAx freshAx
      false (some [-45, 0, 45]) (some "pitch_rot") 7 false noVKwargs noVKwargs
      noDKwargs noVKwargs⟩

/-- C5: in `plot_3d_differencemap` with eye set `{left, right}`, where
the reference entity yields 50 sampled points for the left eye and
25+25 = 50 for the right, the returned combined ErrorField is the
concatenation of the per-eye error fields in eye-processing order (one
per eye) and has exactly 100 entries; the azimuth partition handed to
the surface renderer is fixed at one range `[π/2, 3π/2]` with 50 samples
for the left eye and the two ranges `[0, π/2]` and `[3π/2, 2π]` with 25
samples each for the right eye (angles are stored as coefficients
of π). -/
theorem diffmap_concat_and_partition (fE : FieldErrorFn) (m1 m2 : Analyser) (ax : AxState)
    (c cb : Bool) (cax : Option Unit) (rv : Bool) (arr : List ℚ) (p y r : Option ℚ)
    (hfE : ∀ pA vA pB vB cl, (fE pA vA pB vB cl).length = pA.length)
    (heyes : m1.eyes = ["left", "right"])
    (hL : ∃ pts vecs, m1.extract "left" m1.ts = some (pts, vecs) ∧ pts.length = 50)
    (hR : ∃ pts vecs, m1.extract "right" m1.ts = some (pts, vecs) ∧ pts.length = 50)
    (h2 : ExtractTotal m2.extract) :
    (plot_3d_differencemap fE m1 m2 ax c cb cax rv arr p y r).errors =
      (plot_3d_differencemap fE m1 m2 ax c cb cax rv arr p y r).per_eye_errors.flatten ∧
    (plot_3d_differencemap fE m1 m2 ax c cb cax rv arr p y r).per_eye_errors.length = 2 ∧
    (plot_3d_differencemap fE m1 m2 ax c cb cax rv arr p y r).errors.length = 100 ∧
    (plot_3d_differencemap fE m1 m2 ax c cb cax rv arr p y r).partitions =
      [("left", [linspace (1/2) (3/2) 50]),
       ("right", [linspace 0 (1/2) 25, linspace (3/2) 2 25])] := by
  refine ⟨diffmap_errors_flatten fE m1 m2 ax c cb cax rv arr p y r, ?_⟩
  obtain ⟨pL, vL, hextL, hlenL⟩ := hL
  obtain ⟨pR, vR, hextR, hlenR⟩ := hR
  obtain ⟨pv2L, h2L⟩ := Option.isSome_iff_exists.mp (h2 "left" (diffTs2 m2.ts arr p y r))
  obtain ⟨pv2R, h2R⟩ := Option.isSome_iff_exists.mp (h2 "right" (diffTs2 m2.ts arr p y r))
  unfold plot_3d_differencemap
  dsimp only
  rw [heyes]
  simp [List.foldl_cons, diffEyeStep, hextL, hextR, h2L, h2R, reverseField,
    apply_ite List.length, hfE, hlenL, hlenR]

/-- C5 witness: a concrete two-eye difference map with 50-point
extractions per eye — 100 combined entries and the fixed partition. -/
theorem diffmap_concat_and_partition_witness :
    (plot_3d_differencemap fETest (mTest "MAnalyser" ["left", "right"] 0 none 50)
      (mTest "MAnalyser" ["left", "right"] 0 none 50) freshAx true true none false
      [0] none none none).errors.length = 100 ∧
    (plot_3d_differencemap fETest (mTest "MAnalyser" ["left", "right"] 0 none 50)
      (mTest "MAnalyser" ["left", "right"] 0 none 50) freshAx true true none false
      [0] none none none).partitions =
      [("left", [linspace (1/2) (3/2) 50]),
       ("right", [linspace 0 (1/2) 25, linspace (3/2) 2 25])] := by
  have h := diffmap_concat_and_partition fETest
    (mTest "MAnalyser" ["left", "right"] 0 none 50)
    (mTest "MAnalyser" ["left", "right"] 0 none 50) freshAx true true none false
    [0] none none none
    (fun pA vA pB vB cl => by simp [fETest])
    (by decide)
    ⟨List.replicate 50 ((0 : ℚ), (0 : ℚ), (0 : ℚ)),
      List.replicate 50 ((1 : ℚ), (0 : ℚ), (0 : ℚ)), rfl, by simp⟩
    ⟨List.replicate 50 ((0 : ℚ), (0 : ℚ), (0 : ℚ)),
      List.replicate 50 ((1 : ℚ), (0 : ℚ), (0 : ℚ)), rfl, by simp⟩
    (fun e ts => rfl)
  exact ⟨h.2.2.1, h.2.2.2⟩

/-- C6: running `plot_3d_differencemap` with `colorbar=True` twice
against the same (initially fresh) target attaches exactly one colorbar:
the first run performs the attachment and records it in the
`differencemap_colorbar` marker on the target, and the second run, seeing
the marker set, skips creation as a no-op (the target state is unchanged)
and completes without raising. -/
theorem diffmap_colorbar_idempotent (fE : FieldErrorFn) (m1 m2 : Analyser) (c : Bool)
    (cax : Option Unit) (rv : Bool) (arr : List ℚ) (p y r : Option ℚ)
    (h1 : ExtractTotal m1.extract) (h2 : ExtractTotal m2.extract) (he : m1.eyes ≠ []) :
    (plot_3d_differencemap fE m1 m2 freshAx c true cax rv arr p y r).ax = ⟨some (), 1⟩ ∧
    (plot_3d_differencemap fE m1
      (plot_3d_differencemap fE m1 m2 freshAx c true cax rv arr p y r).m2
      (plot_3d_differencemap fE m1 m2 freshAx c true cax rv arr p y r).ax
      c true cax rv arr p y r).ax = ⟨some (), 1⟩ ∧
    (plot_3d_differencemap fE m1
      (plot_3d_differencemap fE m1 m2 freshAx c true cax rv arr p y r).m2
      (plot_3d_differencemap fE m1 m2 freshAx c true cax rv arr p y r).ax
      c true cax rv arr p y r).raised = false := by
  have hr1 : (plot_3d_differencemap fE m1 m2 freshAx c true cax rv arr p y r).raised
      = false := diffmap_raised_false fE m1 m2 freshAx c true cax rv arr p y r h1 h2 he
  have ha1 := diffmap_ax_attach fE m1 m2 freshAx c cax rv arr p y r rfl hr1
  have h2b : ExtractTotal
      (plot_3d_differencemap fE m1 m2 freshAx c true cax rv arr p y r).m2.extract := by
    rw [(diffmap_m2_fields fE m1 m2 freshAx c true cax rv arr p y r).1]
    exact h2
  have hr2 := diffmap_raised_false fE m1
    (plot_3d_differencemap fE m1 m2 freshAx c true cax rv arr p y r).m2
    (plot_3d_differencemap fE m1 m2 freshAx c true cax rv arr p y r).ax
    c true cax rv arr p y r h1 h2b he
  have ha2 := diffmap_ax_marker_skip fE m1
    (plot_3d_differencemap fE m1 m2 freshAx c true cax rv arr p y r).m2
    (plot_3d_differencemap fE m1 m2 freshAx c true cax rv arr p y r).ax
    c true cax rv arr p y r (by rw [ha1]; simp)
  exact ⟨ha1, by rw [ha2, ha1]; rfl, hr2⟩

/-- C6 witness: the two-run scenario on a concrete target — one
attachment, marker set, second run a no-op that does not raise. -/
theorem diffmap_colorbar_idempotent_witness :
    (plot_3d_differencemap fETest (mTest "MAnalyser" ["left"] 0 none 2)
      (plot_3d_differencemap fETest (mTest "MAnalyser" ["left"] 0 none 2)
        (mTest "MAnalyser" ["left"] 0 none 2) freshAx true true none false [0] none none
        none).m2
      (plot_3d_differencemap fETest (mTest "MAnalyser" ["left"] 0 none 2)
        (mTest "MAnalyser" ["left"] 0 none 2) freshAx true true none false [0] none none
        none).ax
      true true none false [0] none none none).ax = ⟨some (), 1⟩ :=
  (diffmap_colorbar_idempotent fETest (mTest "MAnalyser" ["left"] 0 none 2)
    (mTest "MAnalyser" ["left"] 0 none 2) true none false [0] none none none
    (fun e ts => rfl) (fun e ts => rfl) (by decide)).2.1

/-- C8: a `compare_3d_vectormaps_manyviews` invocation that completes runs
the Comparison Orchestrator exactly three times, with camera
`(elev, azim)` pairs `(50, 90)`, `(0, 90)`, `(-50, 90)` in that order,
and only the first call passes `illustrate=True`, `total_error=True` and
`kwargsD['colorbar']=True` — the second and third pass `illustrate=False`,
`total_error=False`, `colorbar=False`.  Consequently the shared
RunningErrorSeries target accumulates exactly one entry (the animation
variable) per frame, and starting from a fresh first-view difference
target exactly one colorbar is attached across the three views (the
later views' targets are untouched). -/
theorem manyviews_fixed_views_and_sharing (fE : FieldErrorFn) (m1 m2 : Analyser)
    (eA : ErrorAxState) (ax2 ax3 b1 b2 b3 : AxState) (an : Option (List ℚ))
    (at_ : Option String) (av : ℚ) (kw : VKwargs)
    (h : (compare_3d_vectormaps_manyviews fE m1 m2 eA freshAx ax2 ax3 b1 b2 b3 an at_ av
      kw).raised = false) :
    (compare_3d_vectormaps_manyviews fE m1 m2 eA freshAx ax2 ax3 b1 b2 b3 an at_ av
      kw).specs = [⟨50, 90, true, true, true⟩, ⟨0, 90, false, false, false⟩,
        ⟨-50, 90, false, false, false⟩] ∧
    (compare_3d_vectormaps_manyviews fE m1 m2 eA freshAx ax2 ax3 b1 b2 b3 an at_ av
      kw).errorAx.pupil_compare_rotations =
      some ((if eA.pupil_compare_errors = none then []
        else eA.pupil_compare_rotations.getD []) ++ [av]) ∧
    (compare_3d_vectormaps_manyviews fE m1 m2 eA freshAx ax2 ax3 b1 b2 b3 an at_ av
      kw).diffAxes = [⟨some (), 1⟩, ax2, ax3] := by
  unfold compare_3d_vectormaps_manyviews at h ⊢
  dsimp only at h ⊢
  split at h
  · simp at h
  · rename_i hc1
    split at h
    · simp at h
    · rename_i hc2
      rw [if_neg hc1, if_neg hc2]
      have h1 : (compare_3d_vectormaps fE m1 m2 eA freshAx b1 true true an at_ av
          (decide (at_ = some "pitch_rot" ∨ at_ = some "yaw_rot" ∨ at_ = some "roll_rot"))
          noVKwargs noVKwargs ⟨none, some true, some ()⟩
          { kw with elev := some 50, azim := some 90 }).raised = false := by
        simpa using hc1
      refine ⟨rfl, ?_, ?_⟩
      · rw [compare_errorAx_notte, compare_errorAx_notte]
        exact compare_rotations_append _ _ _ _ _ _ _ _ _ _ _ _ _ _ _ h1
      · rw [compare_diffAx_attach _ _ _ _ _ _ _ _ _ _ _ _ _ _ _ rfl h1,
          compare_diffAx_nocb _ _ _ _ _ _ _ _ _ _ _ _ _ _ _ _ rfl,
          compare_diffAx_nocb _ _ _ _ _ _ _ _ _ _ _ _ _ _ _ _ rfl]

/-- C8 witness: a concrete completed multi-view run — the three fixed
view specifications, a single series entry, and a single colorbar
attachment on the fresh first-view target. -/
theorem manyviews_fixed_views_and_sharing_witness :
    (compare_3d_vectormaps_manyviews fETest (mTest "MAnalyser" ["left"] 0 (some 0) 2)
      (mTest "MAnalyser" ["left"] 0 (some 0) 2) freshErrorAx freshAx freshAx freshAx
      freshAx freshAx freshAx (some [-45, 0, 45]) (some "pitch_rot") (-45) noVKwargs).specs
      = [⟨50, 90, true, true, true⟩, ⟨0, 90, false, false, false⟩,
         ⟨-50, 90, false, false, false⟩] ∧
    (compare_3d_vectormaps_manyviews fETest (mTest "MAnalyser" ["left"] 0 (some 0) 2)
      (mTest "MAnalyser" ["left"] 0 (some 0) 2) freshErrorAx freshAx freshAx freshAx
      freshAx freshAx freshAx (some [-45, 0, 45]) (some "pitch_rot")
      (-45) noVKwargs).errorAx.pupil_compare_rotations = some [-45] ∧
    (compare_3d_vectormaps_manyviews fETest (mTest "MAnalyser" ["left"] 0 (some 0) 2)
      (mTest "MAnalyser" ["left"] 0 (some 0) 2) freshErrorAx freshAx freshAx freshAx
      freshAx freshAx freshAx (some [-45, 0, 45]) (some "pitch_rot") (-45) noVKwargs).diffAxes
      = [⟨some (), 1⟩, freshAx, freshAx] :=
  manyviews_fixed_views_and_sharing fETest (mTest "MAnalyser" ["left"] 0 (some 0) 2)
    (mTest "MAnalyser" ["left"] 0 (some 0) 2) freshErrorAx freshAx freshAx freshAx
    freshAx freshAx (some [-45, 0, 45]) (some "pitch_rot") (-45) noVKwargs (by decide)

end Pupil
